import Mathlib

/-!
Verification of the MOOSTARD exomoon radio flux pipeline.

The source is a straight line chain of pure functions over unit tagged
quantities (astropy); here every quantity is a real number carrying its
magnitude in the cgs value that the decompose and cgs calls of the source
produce.  The unit bookkeeping that astropy performs is made explicit in a
handful of conversion constants below.
-/

namespace RadioFlux

/-- Gravitational constant in cgs, cm^3 g^-1 s^-2 (CODATA 2018 value used by
astropy, 6.67430e-11 in SI). -/
noncomputable def G : ℝ := 6.6743e-8

/-- Mass of Io in g, literal from the source. -/
noncomputable def m_io : ℝ := 8.932e25

/-- Radius of Io in cm, literal from the source. -/
noncomputable def r_io : ℝ := 1821e5

/-- Nominal Jupiter equatorial radius in cm (astropy R_jup = 7.1492e7 m). -/
noncomputable def R_jup : ℝ := 7.1492e9

/-- Nominal Jupiter mass parameter in cgs, cm^3 s^-2 (astropy GM_jup =
1.2668653e17 m^3 s^-2). -/
noncomputable def GM_jup : ℝ := 1.2668653e23

/-- Jupiter mass in g; astropy derives M_jup as GM_jup / G. -/
noncomputable def M_jup : ℝ := GM_jup / G

/-- Vacuum permeability in the mixed gauss cgs convention that the astropy
cgs decomposition effectively uses: the SI value 1.25663706212e-6 times 1e7,
so that B^2 * v / mu0 with B in gauss and v in cm/s is an energy flux in
erg s^-1 cm^-2, and (1/mu0) * (B/v)^2 is a density in g cm^-3. -/
noncomputable def mu0 : ℝ := 12.5663706212

/-- Hertz per megahertz. -/
noncomputable def MHzInHz : ℝ := 1e6

/-- Centimetres per parsec (astropy pc = 3.0856775814913673e16 m). -/
noncomputable def pcInCm : ℝ := 3.0856775814913673e18

/-- One millijansky in cgs flux density units, erg s^-1 cm^-2 Hz^-1. -/
noncomputable def mJyInCgs : ℝ := 1e-26

/-- Escape speed (source cell 1): v_ej = sqrt(2 G m_s m_io / (r_s r_io)),
where m_s and r_s are the satellite to Io mass and radius ratios; cm/s. -/
noncomputable def escape_speed (m_s r_s : ℝ) : ℝ :=
  Real.sqrt (2 * G * (m_s * m_io) / (r_s * r_io))

/-- Orbital speed (source cell 2): v_orb = sqrt(G m_p M_jup / d_orb) with
d_orb = a_s r_p R_jup; cm/s. -/
noncomputable def orbital_speed (m_p a_s r_p : ℝ) : ℝ :=
  Real.sqrt (G * (m_p * M_jup) / (a_s * r_p * R_jup))

/-- Relative plasma speed (source cell 3): v0 = abs (v_orb - v_ej). -/
noncomputable def rel_plasma_speed (v_orb v_ej : ℝ) : ℝ := |v_orb - v_ej|

/-- Volume of the plasma torus (source cell 4):
vol_t = 2 pi^2 d_orb^3 (v_ej / v_orb)^2 with d_orb = a_s r_p R_jup; cm^3. -/
noncomputable def volume_torus (a_s r_p v_ej v_orb : ℝ) : ℝ :=
  2 * Real.pi ^ 2 * (a_s * r_p * R_jup) ^ 3 * (v_ej / v_orb) ^ 2

/-- Plasma density (source cell 5): rho_s = Mdot_s t_ion / vol_t; g cm^-3. -/
noncomputable def plasma_density (Mdot_s t_ion vol_t : ℝ) : ℝ :=
  Mdot_s * t_ion / vol_t

/-- Planetary magnetic field from the cyclotron frequency (source cell 6):
B_p = nu_c / 2.8 with nu_c in MHz and B_p in gauss. -/
noncomputable def magnetic_field_p (nu_c : ℝ) : ℝ := nu_c / 2.8

/-- Planetary magnetic field at the satellite location (source cell 7):
B_s = B_p / a_s^3. -/
noncomputable def magnetic_field_s (B_p a_s : ℝ) : ℝ := B_p / a_s ^ 3

/-- Radio power (source cell 8):
P_rad = pi beta_s (r_s r_io)^2 B_s^2 v0 / mu0
        * sqrt(rho_s / (rho_s + (1/mu0) (B_s/v0)^2)); erg/s. -/
noncomputable def power_rad (beta_s r_s B_s v0 rho_s : ℝ) : ℝ :=
  Real.pi * beta_s * (r_s * r_io) ^ 2 * B_s ^ 2 * v0 / mu0 *
    Real.sqrt (rho_s / (rho_s + 1 / mu0 * (B_s / v0) ^ 2))

/-- Radio flux (source cell 9): S_nu = P_rad / (omega (nu_c/2) d^2) converted
to mJy; P_rad in erg/s, d in parsec, nu_c in MHz, as in the source, with the
conversions that the astropy to mJy call performs made explicit. -/
noncomputable def flux_rad (P_rad omega d nu_c : ℝ) : ℝ :=
  P_rad / (omega * (nu_c * MHzInHz / 2) * (d * pcInCm) ^ 2) / mJyInCgs

/-- The critical density of the specification, rho_critical =
(1/mu0) (B_s/v0)^2, written as a named function of the same B_s and v0 that
appear in the rest of the radiated power expression. -/
noncomputable def rho_critical (B_s v0 : ℝ) : ℝ := 1 / mu0 * (B_s / v0) ^ 2

/-- The density mixing factor sqrt(rho_s / (rho_s + (1/mu0) (B_s/v0)^2))
appearing inside power_rad. -/
noncomputable def mixing_fraction (B_s v0 rho_s : ℝ) : ℝ :=
  Real.sqrt (rho_s / (rho_s + 1 / mu0 * (B_s / v0) ^ 2))

/-- End to end WASP-49 b flux, composing the pipeline exactly as the
WASP 49 cell of the source does: distance 194.55 pc, planet mass ratio 0.399,
planet radius ratio 1.198, semimajor axis ratio 1.19, mass loss rate 10^7.3
g/s, ionization timescale 32586 s, cyclotron frequency 150 MHz, satellite
radius ratio 1, efficiency 0.1, solid angle 0.16. -/
noncomputable def S_WASP49 : ℝ :=
  flux_rad
    (power_rad 0.1 1 (magnetic_field_s (magnetic_field_p 150) 1.19)
      (rel_plasma_speed (orbital_speed 0.399 1.19 1.198) (escape_speed 1 1))
      (plasma_density ((10 : ℝ) ^ (7.3 : ℝ)) 32586
        (volume_torus 1.19 1.198 (escape_speed 1 1)
          (orbital_speed 0.399 1.19 1.198))))
    0.16 194.55 150

/-- HD 189733 b scenario with the parameter set of the claimed first model
variant: distance 19.76 pc, planet mass ratio 1.166, planet radius ratio
1.119, semimajor axis ratio 1.6, mass loss rate 10^5.4 * 1000 kg/s written in
g/s, ionization timescale 1011 s, planetary field 53.57 G, cyclotron
frequency 150 MHz, and the generic defaults r_s = 1, beta_s = 0.1,
omega = 0.16 of the source. -/
noncomputable def S_HD189_variant : ℝ :=
  flux_rad
    (power_rad 0.1 1 (magnetic_field_s 53.57 1.6)
      (rel_plasma_speed (orbital_speed 1.166 1.6 1.119) (escape_speed 1 1))
      (plasma_density ((10 : ℝ) ^ (5.4 : ℝ) * 1000 * 1000) 1011
        (volume_torus 1.6 1.119 (escape_speed 1 1)
          (orbital_speed 1.166 1.6 1.119))))
    0.16 19.76 150

/-- Interval arithmetic helper: product of two nonnegative bracketed reals. -/
lemma mem_mul {x y a b c d : ℝ} (ha : 0 ≤ a) (hc : 0 ≤ c)
    (h1 : a ≤ x) (h2 : x ≤ b) (h3 : c ≤ y) (h4 : y ≤ d) :
    a * c ≤ x * y ∧ x * y ≤ b * d := by
  constructor
  · exact mul_le_mul h1 h3 hc (ha.trans h1)
  · exact mul_le_mul h2 h4 (hc.trans h3) ((ha.trans h1).trans h2)

/-- Interval arithmetic helper: quotient of bracketed reals with positive
denominator. -/
lemma mem_div {x y a b c d : ℝ} (ha : 0 ≤ a) (hc : 0 < c)
    (h1 : a ≤ x) (h2 : x ≤ b) (h3 : c ≤ y) (h4 : y ≤ d) :
    a / d ≤ x / y ∧ x / y ≤ b / c := by
  have hy : 0 < y := lt_of_lt_of_le hc h3
  have hd : 0 < d := lt_of_lt_of_le hc (h3.trans h4)
  constructor
  · rw [div_le_div_iff₀ hd hy]; nlinarith
  · rw [div_le_div_iff₀ hy hc]; nlinarith

/-- Interval arithmetic helper: square of a nonnegative bracketed real. -/
lemma mem_sq {x a b : ℝ} (ha : 0 ≤ a) (h1 : a ≤ x) (h2 : x ≤ b) :
    a ^ 2 ≤ x ^ 2 ∧ x ^ 2 ≤ b ^ 2 :=
  ⟨pow_le_pow_left₀ ha h1 2, pow_le_pow_left₀ (ha.trans h1) h2 2⟩

/-- Interval arithmetic helper: square root of a bracketed real. -/
lemma mem_sqrt {x a b : ℝ} (ha : 0 ≤ a) (hb : 0 ≤ b)
    (h1 : a ^ 2 ≤ x) (h2 : x ≤ b ^ 2) :
    a ≤ Real.sqrt x ∧ Real.sqrt x ≤ b :=
  ⟨Real.le_sqrt_of_sq_le h1, Real.sqrt_le_iff.mpr ⟨hb, h2⟩⟩

/-- Interval arithmetic helper: left scaling by a nonnegative constant. -/
lemma mem_scale {x c lo hi : ℝ} (hc : 0 ≤ c) (h1 : lo ≤ x) (h2 : x ≤ hi) :
    c * lo ≤ c * x ∧ c * x ≤ c * hi :=
  ⟨mul_le_mul_of_nonneg_left h1 hc, mul_le_mul_of_nonneg_left h2 hc⟩

/-- Interval arithmetic helper: right scaling by a nonnegative constant. -/
lemma mem_scale_right {x c lo hi : ℝ} (hc : 0 ≤ c) (h1 : lo ≤ x) (h2 : x ≤ hi) :
    lo * c ≤ x * c ∧ x * c ≤ hi * c :=
  ⟨mul_le_mul_of_nonneg_right h1 hc, mul_le_mul_of_nonneg_right h2 hc⟩

/-- The permeability constant is positive. -/
lemma mu0_pos : (0 : ℝ) < mu0 := by unfold mu0; norm_num

/-- The Io radius constant is positive. -/
lemma r_io_pos : (0 : ℝ) < r_io := by unfold r_io; norm_num

/-- Claim C1: for positive inputs, power_rad returns the Zarka and Noyola
style power flux pi beta_s (r_s r_io)^2 B_s^2 v0 / mu0 scaled by
sqrt(rho_s / (rho_s + rho_critical)), with rho_critical computed from the
same B_s and v0 arguments that appear in the rest of the expression. -/
theorem power_rad_formula (beta_s r_s B_s v0 rho_s : ℝ)
    (hb : 0 < beta_s) (hr : 0 < r_s) (hB : 0 < B_s) (hv : 0 < v0)
    (hrho : 0 < rho_s) :
    power_rad beta_s r_s B_s v0 rho_s =
      Real.pi * beta_s * (r_s * r_io) ^ 2 * B_s ^ 2 * v0 / mu0 *
        Real.sqrt (rho_s / (rho_s + rho_critical B_s v0)) := rfl

/-- Witness for claim C1 at beta_s = r_s = B_s = v0 = rho_s = 1. -/
theorem power_rad_formula_witness :
    ((0 : ℝ) < 1) ∧
      power_rad 1 1 1 1 1 =
        Real.pi * 1 * ((1 : ℝ) * r_io) ^ 2 * 1 ^ 2 * 1 / mu0 *
          Real.sqrt (1 / (1 + rho_critical 1 1)) :=
  ⟨by norm_num,
    power_rad_formula 1 1 1 1 1 (by norm_num) (by norm_num) (by norm_num)
      (by norm_num) (by norm_num)⟩

/-- Claim C2: for positive inputs, the flux returned by flux_rad, read back
from millijansky into cgs and multiplied by solid angle, bandwidth and
distance squared, recovers the radiated power; the bandwidth is exactly half
the cyclotron frequency. -/
theorem flux_rad_formula (P_rad omega d nu_c : ℝ)
    (hP : 0 < P_rad) (ho : 0 < omega) (hd : 0 < d) (hn : 0 < nu_c) :
    flux_rad P_rad omega d nu_c * mJyInCgs *
        (omega * (nu_c * MHzInHz / 2) * (d * pcInCm) ^ 2) = P_rad := by
  have ho' := ho.ne'
  have hn' := hn.ne'
  have hd' := hd.ne'
  unfold flux_rad mJyInCgs MHzInHz pcInCm
  field_simp
  ring

/-- Witness for claim C2 at P_rad = omega = d = nu_c = 1. -/
theorem flux_rad_formula_witness :
    ((0 : ℝ) < 1) ∧
      flux_rad 1 1 1 1 * mJyInCgs *
          ((1 : ℝ) * ((1 : ℝ) * MHzInHz / 2) * ((1 : ℝ) * pcInCm) ^ 2) = 1 :=
  ⟨by norm_num,
    flux_rad_formula 1 1 1 1 (by norm_num) (by norm_num) (by norm_num)
      (by norm_num)⟩

/-- Claim C5 counterexample: plasma_density called with a negative torus
volume does not fail and does not return a sentinel; it silently returns an
ordinary, physically meaningless negative density. -/
theorem plasma_density_silent_negative :
    plasma_density 10 10 (-1) = -100 ∧ plasma_density 10 10 (-1) < 0 := by
  unfold plasma_density
  norm_num

/-- Claim C5 amended: the pipeline performs no input validation; for a
negative torus volume, plasma_density is a total function returning the
negative value Mdot_s t_ion / vol_t, with no error or sentinel surfaced. -/
theorem plasma_density_no_guard (Mdot_s t_ion vol_t : ℝ)
    (hM : 0 < Mdot_s) (ht : 0 < t_ion) (hv : vol_t < 0) :
    plasma_density Mdot_s t_ion vol_t = Mdot_s * t_ion / vol_t ∧
      plasma_density Mdot_s t_ion vol_t < 0 := by
  refine ⟨rfl, ?_⟩
  unfold plasma_density
  exact div_neg_of_pos_of_neg (by positivity) hv

/-- Witness for the amended claim C5 at Mdot_s = t_ion = 1, vol_t = -1. -/
theorem plasma_density_no_guard_witness :
    ((0 : ℝ) < 1 ∧ (-1 : ℝ) < 0) ∧
      (plasma_density 1 1 (-1) = 1 * 1 / (-1) ∧ plasma_density 1 1 (-1) < 0) :=
  ⟨⟨by norm_num, by norm_num⟩,
    plasma_density_no_guard 1 1 (-1) (by norm_num) (by norm_num) (by norm_num)⟩

/-- Claim C7: for fixed positive planetary field, the field at the satellite
is strictly decreasing in the semimajor axis ratio. -/
theorem magnetic_field_s_strict_anti (B_p a1 a2 : ℝ)
    (hB : 0 < B_p) (h1 : 0 < a1) (h12 : a1 < a2) :
    magnetic_field_s B_p a2 < magnetic_field_s B_p a1 := by
  unfold magnetic_field_s
  have h2 : 0 < a1 ^ 3 := by positivity
  have h3 : a1 ^ 3 < a2 ^ 3 := pow_lt_pow_left₀ h12 h1.le (by norm_num)
  exact div_lt_div_of_pos_left hB h2 h3

/-- Witness for claim C7 at B_p = 1, a1 = 1, a2 = 2. -/
theorem magnetic_field_s_strict_anti_witness :
    ((0 : ℝ) < 1 ∧ (1 : ℝ) < 2) ∧ magnetic_field_s 1 2 < magnetic_field_s 1 1 :=
  ⟨⟨by norm_num, by norm_num⟩,
    magnetic_field_s_strict_anti 1 1 2 (by norm_num) (by norm_num) (by norm_num)⟩

/-- Claim C6: for strictly positive B_s and v0, the density mixing factor
appearing inside power_rad lies in the interval [0, 1] for every positive
plasma density, tends to 1 as the density tends to infinity, tends to 0 as
the density tends to 0, and power_rad factors through it. -/
theorem mixing_fraction_props (B_s v0 : ℝ) (hB : 0 < B_s) (hv : 0 < v0) :
    (∀ rho_s : ℝ, 0 < rho_s →
        0 ≤ mixing_fraction B_s v0 rho_s ∧ mixing_fraction B_s v0 rho_s ≤ 1) ∧
      Filter.Tendsto (mixing_fraction B_s v0) Filter.atTop (nhds 1) ∧
      Filter.Tendsto (mixing_fraction B_s v0) (nhds 0) (nhds 0) ∧
      ∀ beta_s r_s rho_s : ℝ,
        power_rad beta_s r_s B_s v0 rho_s =
          Real.pi * beta_s * (r_s * r_io) ^ 2 * B_s ^ 2 * v0 / mu0 *
            mixing_fraction B_s v0 rho_s := by
  have hm := mu0_pos
  have hc : 0 < 1 / mu0 * (B_s / v0) ^ 2 := by
    have h1 : 0 < B_s / v0 := div_pos hB hv
    positivity
  refine ⟨?_, ?_, ?_, ?_⟩
  · intro rho_s hrho
    refine ⟨Real.sqrt_nonneg _, ?_⟩
    rw [show (1 : ℝ) = Real.sqrt 1 from Real.sqrt_one.symm]
    apply Real.sqrt_le_sqrt
    rw [div_le_one (by linarith)]
    linarith
  · have h0 : Filter.Tendsto (fun rho : ℝ => 1 / mu0 * (B_s / v0) ^ 2 / rho)
        Filter.atTop (nhds 0) := tendsto_const_nhds.div_atTop Filter.tendsto_id
    have h1 : Filter.Tendsto
        (fun rho : ℝ => 1 + 1 / mu0 * (B_s / v0) ^ 2 / rho)
        Filter.atTop (nhds 1) := by
      simpa using Filter.Tendsto.const_add (1 : ℝ) h0
    have h2 : Filter.Tendsto
        (fun rho : ℝ => (1 + 1 / mu0 * (B_s / v0) ^ 2 / rho)⁻¹)
        Filter.atTop (nhds 1) := by
      simpa using h1.inv₀ one_ne_zero
    have h3 : (fun rho : ℝ => (1 + 1 / mu0 * (B_s / v0) ^ 2 / rho)⁻¹)
        =ᶠ[Filter.atTop]
        fun rho : ℝ => rho / (rho + 1 / mu0 * (B_s / v0) ^ 2) := by
      filter_upwards [Filter.eventually_gt_atTop (0 : ℝ)] with rho hrho
      rw [one_add_div hrho.ne', inv_div]
    have h4 := (Real.continuous_sqrt.tendsto 1).comp
      (Filter.Tendsto.congr' h3 h2)
    rw [Real.sqrt_one] at h4
    exact h4
  · have k1 : ContinuousAt
        (fun rho : ℝ => rho / (rho + 1 / mu0 * (B_s / v0) ^ 2)) 0 := by
      apply ContinuousAt.div continuousAt_id
        (continuousAt_id.add continuousAt_const)
      simpa using hc.ne'
    have k2 := k1.tendsto
    rw [show (0 : ℝ) / (0 + 1 / mu0 * (B_s / v0) ^ 2) = 0 by simp] at k2
    have k3 := (Real.continuous_sqrt.tendsto 0).comp k2
    rw [Real.sqrt_zero] at k3
    exact k3
  · intro beta_s r_s rho_s
    rfl

/-- Witness for claim C6 at B_s = v0 = 1. -/
theorem mixing_fraction_props_witness :
    ((0 : ℝ) < 1) ∧
      ((∀ rho_s : ℝ, 0 < rho_s →
          0 ≤ mixing_fraction 1 1 rho_s ∧ mixing_fraction 1 1 rho_s ≤ 1) ∧
        Filter.Tendsto (mixing_fraction 1 1) Filter.atTop (nhds 1) ∧
        Filter.Tendsto (mixing_fraction 1 1) (nhds 0) (nhds 0) ∧
        ∀ beta_s r_s rho_s : ℝ,
          power_rad beta_s r_s 1 1 rho_s =
            Real.pi * beta_s * (r_s * r_io) ^ 2 * 1 ^ 2 * 1 / mu0 *
              mixing_fraction 1 1 rho_s) :=
  ⟨by norm_num, mixing_fraction_props 1 1 (by norm_num) (by norm_num)⟩

/-- Claim C8: for strictly positive inputs, every value computed by the
pipeline functions is non-negative. -/
theorem pipeline_nonneg
    (m_s r_s m_p a_s r_p v_orb v_ej Mdot_s t_ion vol_t nu_c B_p B_s v0 rho_s
      beta_s P_rad omega d : ℝ)
    (h1 : 0 < m_s) (h2 : 0 < r_s) (h3 : 0 < m_p) (h4 : 0 < a_s) (h5 : 0 < r_p)
    (h6 : 0 < v_orb) (h7 : 0 < v_ej) (h8 : 0 < Mdot_s) (h9 : 0 < t_ion)
    (h10 : 0 < vol_t) (h11 : 0 < nu_c) (h12 : 0 < B_p) (h13 : 0 < B_s)
    (h14 : 0 < v0) (h15 : 0 < rho_s) (h16 : 0 < beta_s) (h17 : 0 < P_rad)
    (h18 : 0 < omega) (h19 : 0 < d) :
    0 ≤ escape_speed m_s r_s ∧ 0 ≤ orbital_speed m_p a_s r_p ∧
      0 ≤ rel_plasma_speed v_orb v_ej ∧
      0 ≤ plasma_density Mdot_s t_ion vol_t ∧
      0 ≤ magnetic_field_p nu_c ∧ 0 ≤ magnetic_field_s B_p a_s ∧
      0 ≤ power_rad beta_s r_s B_s v0 rho_s ∧
      0 ≤ flux_rad P_rad omega d nu_c := by
  have hm := mu0_pos
  have hrio := r_io_pos
  have hpi := Real.pi_pos
  refine ⟨Real.sqrt_nonneg _, Real.sqrt_nonneg _, abs_nonneg _, ?_, ?_, ?_,
    ?_, ?_⟩
  · unfold plasma_density; positivity
  · unfold magnetic_field_p; positivity
  · unfold magnetic_field_s; positivity
  · unfold power_rad; positivity
  · have hmj : (0 : ℝ) < mJyInCgs := by unfold mJyInCgs; norm_num
    have hmh : (0 : ℝ) < MHzInHz := by unfold MHzInHz; norm_num
    have hpc : (0 : ℝ) < pcInCm := by unfold pcInCm; norm_num
    unfold flux_rad; positivity

/-- Witness for claim C8 with every input equal to 1. -/
theorem pipeline_nonneg_witness :
    ((0 : ℝ) < 1) ∧
      (0 ≤ escape_speed 1 1 ∧ 0 ≤ orbital_speed 1 1 1 ∧
        0 ≤ rel_plasma_speed 1 1 ∧ 0 ≤ plasma_density 1 1 1 ∧
        0 ≤ magnetic_field_p 1 ∧ 0 ≤ magnetic_field_s 1 1 ∧
        0 ≤ power_rad 1 1 1 1 1 ∧ 0 ≤ flux_rad 1 1 1 1) :=
  ⟨by norm_num,
    pipeline_nonneg 1 1 1 1 1 1 1 1 1 1 1 1 1 1 1 1 1 1 1 (by norm_num)
      (by norm_num) (by norm_num) (by norm_num) (by norm_num) (by norm_num)
      (by norm_num) (by norm_num) (by norm_num) (by norm_num) (by norm_num)
      (by norm_num) (by norm_num) (by norm_num) (by norm_num) (by norm_num)
      (by norm_num) (by norm_num) (by norm_num)⟩

/-- Claim C10: with efficiency, satellite radius ratio, field and relative
speed held fixed at positive values, power_rad is strictly increasing in the
plasma density. -/
theorem power_rad_strictMono_rho (beta_s r_s B_s v0 rho1 rho2 : ℝ)
    (hb : 0 < beta_s) (hr : 0 < r_s) (hB : 0 < B_s) (hv : 0 < v0)
    (h1 : 0 < rho1) (h12 : rho1 < rho2) :
    power_rad beta_s r_s B_s v0 rho1 < power_rad beta_s r_s B_s v0 rho2 := by
  unfold power_rad
  have hm := mu0_pos
  have hrio := r_io_pos
  have hpi := Real.pi_pos
  have hc : 0 < 1 / mu0 * (B_s / v0) ^ 2 := by
    have hq : 0 < B_s / v0 := div_pos hB hv
    positivity
  have hfrac : rho1 / (rho1 + 1 / mu0 * (B_s / v0) ^ 2) <
      rho2 / (rho2 + 1 / mu0 * (B_s / v0) ^ 2) := by
    rw [div_lt_div_iff₀ (by linarith) (by linarith)]
    nlinarith [mul_pos (sub_pos.mpr h12) hc]
  have hsq := Real.sqrt_lt_sqrt (by positivity) hfrac
  have hC : 0 < Real.pi * beta_s * (r_s * r_io) ^ 2 * B_s ^ 2 * v0 / mu0 := by
    positivity
  exact mul_lt_mul_of_pos_left hsq hC

/-- Witness for claim C10 at beta_s = r_s = B_s = v0 = 1, rho1 = 1,
rho2 = 2. -/
theorem power_rad_strictMono_rho_witness :
    ((0 : ℝ) < 1 ∧ (1 : ℝ) < 2) ∧ power_rad 1 1 1 1 1 < power_rad 1 1 1 1 2 :=
  ⟨⟨by norm_num, by norm_num⟩,
    power_rad_strictMono_rho 1 1 1 1 1 2 (by norm_num) (by norm_num)
      (by norm_num) (by norm_num) (by norm_num) (by norm_num)⟩

/-- Claim C9: rel_plasma_speed is symmetric in its two arguments and equals
the absolute difference of the two speeds. -/
theorem rel_plasma_speed_symm_abs (a b : ℝ) :
    rel_plasma_speed a b = rel_plasma_speed b a ∧
      rel_plasma_speed a b = |a - b| :=
  ⟨abs_sub_comm a b, rfl⟩

/-- Numeric bracket for the Io escape speed shared by both scenarios. -/
lemma vej_bounds :
    (255880.53 : ℝ) ≤ escape_speed 1 1 ∧ escape_speed 1 1 ≤ 255880.54 := by
  unfold escape_speed G m_io r_io
  exact mem_sqrt (by norm_num) (by norm_num) (by norm_num) (by norm_num)

/-- Numeric bracket for the WASP-49 b orbital speed at axis ratio 1.19. -/
lemma vorb_W_bounds :
    (2227004.29 : ℝ) ≤ orbital_speed 0.399 1.19 1.198 ∧
      orbital_speed 0.399 1.19 1.198 ≤ 2227004.31 := by
  unfold orbital_speed M_jup GM_jup G R_jup
  exact mem_sqrt (by norm_num) (by norm_num) (by norm_num) (by norm_num)

/-- Numeric bracket for 10 to the real power 7.3, obtained from its tenth
power being exactly 10 to the 73. -/
lemma ten_pow_73_bounds :
    (19952623.1 : ℝ) ≤ (10 : ℝ) ^ (7.3 : ℝ) ∧
      (10 : ℝ) ^ (7.3 : ℝ) ≤ 19952623.2 := by
  have key : ((10 : ℝ) ^ (7.3 : ℝ)) ^ (10 : ℕ) = 10 ^ (73 : ℕ) := by
    rw [← Real.rpow_natCast ((10 : ℝ) ^ (7.3 : ℝ)) 10,
      ← Real.rpow_mul (by norm_num : (0 : ℝ) ≤ 10),
      show (7.3 : ℝ) * ((10 : ℕ) : ℝ) = ((73 : ℕ) : ℝ) by push_cast; norm_num,
      Real.rpow_natCast]
  have hpos : (0 : ℝ) < (10 : ℝ) ^ (7.3 : ℝ) :=
    Real.rpow_pos_of_pos (by norm_num) _
  constructor
  · have h10 : (19952623.1 : ℝ) ^ (10 : ℕ) ≤ ((10 : ℝ) ^ (7.3 : ℝ)) ^ (10 : ℕ) := by
      rw [key]; norm_num
    exact le_of_pow_le_pow_left₀ (by norm_num) hpos.le h10
  · have h10 : ((10 : ℝ) ^ (7.3 : ℝ)) ^ (10 : ℕ) ≤ (19952623.2 : ℝ) ^ (10 : ℕ) := by
      rw [key]; norm_num
    exact le_of_pow_le_pow_left₀ (by norm_num) (by norm_num) h10

/-- Numeric bracket for the WASP-49 b relative plasma speed. -/
lemma W_v0_bounds :
    (1971123.75 : ℝ) ≤
        rel_plasma_speed (orbital_speed 0.399 1.19 1.198) (escape_speed 1 1) ∧
      rel_plasma_speed (orbital_speed 0.399 1.19 1.198) (escape_speed 1 1) ≤
        1971123.78 := by
  obtain ⟨ha1, ha2⟩ := vej_bounds
  obtain ⟨hb1, hb2⟩ := vorb_W_bounds
  unfold rel_plasma_speed
  rw [abs_of_nonneg (by linarith)]
  constructor <;> linarith

/-- Numeric bracket for the WASP-49 b torus volume. -/
lemma W_vol_bounds :
    (2.758961e29 : ℝ) ≤
        volume_torus 1.19 1.198 (escape_speed 1 1)
          (orbital_speed 0.399 1.19 1.198) ∧
      volume_torus 1.19 1.198 (escape_speed 1 1)
          (orbital_speed 0.399 1.19 1.198) ≤ 2.758964e29 := by
  obtain ⟨ha1, ha2⟩ := vej_bounds
  obtain ⟨hb1, hb2⟩ := vorb_W_bounds
  have hq := mem_div (show (0 : ℝ) ≤ 255880.53 by norm_num)
    (show (0 : ℝ) < 2227004.29 by norm_num) ha1 ha2 hb1 hb2
  have hq2 := mem_sq
    (show (0 : ℝ) ≤ 255880.53 / 2227004.31 by positivity) hq.1 hq.2
  have hpi2 := mem_sq (show (0 : ℝ) ≤ 3.141592 by norm_num)
    Real.pi_gt_d6.le Real.pi_lt_d6.le
  have hprod := mem_mul (show (0 : ℝ) ≤ 3.141592 ^ 2 by positivity)
    (show (0 : ℝ) ≤ (255880.53 / 2227004.31) ^ 2 by positivity)
    hpi2.1 hpi2.2 hq2.1 hq2.2
  have hE : volume_torus 1.19 1.198 (escape_speed 1 1)
      (orbital_speed 0.399 1.19 1.198) =
      2 * (1.19 * 1.198 * 7.1492e9 : ℝ) ^ 3 *
        (Real.pi ^ 2 *
          (escape_speed 1 1 / orbital_speed 0.399 1.19 1.198) ^ 2) := by
    unfold volume_torus R_jup
    ring
  rw [hE]
  have hsc := mem_scale
    (show (0 : ℝ) ≤ 2 * (1.19 * 1.198 * 7.1492e9 : ℝ) ^ 3 by norm_num)
    hprod.1 hprod.2
  exact ⟨le_trans (by norm_num) hsc.1, le_trans hsc.2 (by norm_num)⟩

/-- Numeric bracket for the WASP-49 b plasma density. -/
lemma W_rho_bounds :
    (2.356594e-18 : ℝ) ≤
        plasma_density ((10 : ℝ) ^ (7.3 : ℝ)) 32586
          (volume_torus 1.19 1.198 (escape_speed 1 1)
            (orbital_speed 0.399 1.19 1.198)) ∧
      plasma_density ((10 : ℝ) ^ (7.3 : ℝ)) 32586
          (volume_torus 1.19 1.198 (escape_speed 1 1)
            (orbital_speed 0.399 1.19 1.198)) ≤ 2.356599e-18 := by
  obtain ⟨hm1, hm2⟩ := ten_pow_73_bounds
  obtain ⟨hv1, hv2⟩ := W_vol_bounds
  unfold plasma_density
  have hnum := mem_scale_right (show (0 : ℝ) ≤ 32586 by norm_num) hm1 hm2
  have hd := mem_div (show (0 : ℝ) ≤ 19952623.1 * 32586 by norm_num)
    (show (0 : ℝ) < 2.758961e29 by norm_num) hnum.1 hnum.2 hv1 hv2
  exact ⟨le_trans (by norm_num) hd.1, le_trans hd.2 (by norm_num)⟩

/-- Numeric bracket for the WASP-49 b radiated power. -/
lemma W_power_bounds :
    (5.5721e20 : ℝ) ≤
        power_rad 0.1 1 (magnetic_field_s (magnetic_field_p 150) 1.19)
          (rel_plasma_speed (orbital_speed 0.399 1.19 1.198) (escape_speed 1 1))
          (plasma_density ((10 : ℝ) ^ (7.3 : ℝ)) 32586
            (volume_torus 1.19 1.198 (escape_speed 1 1)
              (orbital_speed 0.399 1.19 1.198))) ∧
      power_rad 0.1 1 (magnetic_field_s (magnetic_field_p 150) 1.19)
          (rel_plasma_speed (orbital_speed 0.399 1.19 1.198) (escape_speed 1 1))
          (plasma_density ((10 : ℝ) ^ (7.3 : ℝ)) 32586
            (volume_torus 1.19 1.198 (escape_speed 1 1)
              (orbital_speed 0.399 1.19 1.198))) ≤ 5.5723e20 := by
  obtain ⟨hv1, hv2⟩ := W_v0_bounds
  obtain ⟨hr1, hr2⟩ := W_rho_bounds
  set V := rel_plasma_speed (orbital_speed 0.399 1.19 1.198) (escape_speed 1 1)
  set RHO := plasma_density ((10 : ℝ) ^ (7.3 : ℝ)) 32586
    (volume_torus 1.19 1.198 (escape_speed 1 1)
      (orbital_speed 0.399 1.19 1.198))
  have hE : power_rad 0.1 1 (magnetic_field_s (magnetic_field_p 150) 1.19)
      V RHO =
      0.1 * ((1 : ℝ) * 1821e5) ^ 2 * (150 / 2.8 / 1.19 ^ 3) ^ 2 /
          12.5663706212 *
        (Real.pi * (V * Real.sqrt
          (RHO / (RHO + 1 / 12.5663706212 * (150 / 2.8 / 1.19 ^ 3 / V) ^ 2)))) := by
    unfold power_rad magnetic_field_s magnetic_field_p mu0 r_io
    ring
  rw [hE]
  have hq := mem_div (show (0 : ℝ) ≤ 150 / 2.8 / 1.19 ^ 3 by norm_num)
    (show (0 : ℝ) < 1971123.75 by norm_num)
    (le_refl ((150 : ℝ) / 2.8 / 1.19 ^ 3))
    (le_refl ((150 : ℝ) / 2.8 / 1.19 ^ 3)) hv1 hv2
  have hq2 := mem_sq
    (show (0 : ℝ) ≤ 150 / 2.8 / 1.19 ^ 3 / 1971123.78 by positivity) hq.1 hq.2
  have hrcp := mem_scale
    (show (0 : ℝ) ≤ 1 / (12.5663706212 : ℝ) by norm_num) hq2.1 hq2.2
  have hden1 : (2.356594e-18 + 2.0698888e-11 : ℝ) ≤
      RHO + 1 / 12.5663706212 * (150 / 2.8 / 1.19 ^ 3 / V) ^ 2 :=
    add_le_add hr1 (le_trans (by norm_num) hrcp.1)
  have hden2 : RHO + 1 / 12.5663706212 * (150 / 2.8 / 1.19 ^ 3 / V) ^ 2 ≤
      2.356599e-18 + 2.0698890e-11 :=
    add_le_add hr2 (le_trans hrcp.2 (by norm_num))
  have hf := mem_div (show (0 : ℝ) ≤ 2.356594e-18 by norm_num)
    (show (0 : ℝ) < 2.356594e-18 + 2.0698888e-11 by norm_num)
    hr1 hr2 hden1 hden2
  have hf1 : (1.138510e-7 : ℝ) ≤
      RHO / (RHO + 1 / 12.5663706212 * (150 / 2.8 / 1.19 ^ 3 / V) ^ 2) :=
    le_trans (by norm_num) hf.1
  have hf2 : RHO / (RHO + 1 / 12.5663706212 * (150 / 2.8 / 1.19 ^ 3 / V) ^ 2) ≤
      1.138517e-7 :=
    le_trans hf.2 (by norm_num)
  have hsf := mem_sqrt (show (0 : ℝ) ≤ 3.374180e-4 by norm_num)
    (show (0 : ℝ) ≤ 3.374192e-4 by norm_num)
    (le_trans (show ((3.374180e-4 : ℝ)) ^ 2 ≤ 1.138510e-7 by norm_num) hf1)
    (le_trans hf2 (show (1.138517e-7 : ℝ) ≤ (3.374192e-4 : ℝ) ^ 2 by norm_num))
  have hvs := mem_mul (show (0 : ℝ) ≤ 1971123.75 by norm_num)
    (show (0 : ℝ) ≤ 3.374180e-4 by norm_num) hv1 hv2 hsf.1 hsf.2
  have hps := mem_mul (show (0 : ℝ) ≤ 3.141592 by norm_num)
    (show (0 : ℝ) ≤ 1971123.75 * 3.374180e-4 by norm_num)
    Real.pi_gt_d6.le Real.pi_lt_d6.le hvs.1 hvs.2
  have hsc := mem_scale
    (show (0 : ℝ) ≤ 0.1 * ((1 : ℝ) * 1821e5) ^ 2 *
        (150 / 2.8 / 1.19 ^ 3) ^ 2 / 12.5663706212 by norm_num)
    hps.1 hps.2
  exact ⟨le_trans (by norm_num) hsc.1, le_trans hsc.2 (by norm_num)⟩

/-- Numeric bracket for the end to end WASP-49 b flux density. -/
lemma W_S_bounds : (0.01288 : ℝ) ≤ S_WASP49 ∧ S_WASP49 ≤ 0.012886 := by
  obtain ⟨hP1, hP2⟩ := W_power_bounds
  unfold S_WASP49 flux_rad MHzInHz pcInCm mJyInCgs
  constructor
  · refine le_trans (show (0.01288 : ℝ) ≤ 5.5721e20 /
      (0.16 * (150 * 1e6 / 2) * (194.55 * 3.0856775814913673e18) ^ 2) / 1e-26
      by norm_num) ?_
    gcongr
  · refine le_trans ?_ (show (5.5723e20 : ℝ) /
      (0.16 * (150 * 1e6 / 2) * (194.55 * 3.0856775814913673e18) ^ 2) / 1e-26 ≤
      0.012886 by norm_num)
    gcongr

/-- Claim C3: the composed WASP-49 b pipeline yields a flux density of about
0.013 mJy, within five percent. -/
theorem S_WASP49_approx : |S_WASP49 - 0.013| ≤ 0.05 * 0.013 := by
  obtain ⟨h1, h2⟩ := W_S_bounds
  rw [abs_le]
  constructor <;> linarith

/-- Numeric bracket for the HD 189733 b orbital speed at axis ratio 1.6. -/
lemma vorb_H_bounds :
    (3397118.82 : ℝ) ≤ orbital_speed 1.166 1.6 1.119 ∧
      orbital_speed 1.166 1.6 1.119 ≤ 3397118.83 := by
  unfold orbital_speed M_jup GM_jup G R_jup
  exact mem_sqrt (by norm_num) (by norm_num) (by norm_num) (by norm_num)

/-- Numeric bracket for 10 to the real power 5.4, obtained from its fifth
power being exactly 10 to the 27. -/
lemma ten_pow_54_bounds :
    (251188.64 : ℝ) ≤ (10 : ℝ) ^ (5.4 : ℝ) ∧
      (10 : ℝ) ^ (5.4 : ℝ) ≤ 251188.65 := by
  have key : ((10 : ℝ) ^ (5.4 : ℝ)) ^ (5 : ℕ) = 10 ^ (27 : ℕ) := by
    rw [← Real.rpow_natCast ((10 : ℝ) ^ (5.4 : ℝ)) 5,
      ← Real.rpow_mul (by norm_num : (0 : ℝ) ≤ 10),
      show (5.4 : ℝ) * ((5 : ℕ) : ℝ) = ((27 : ℕ) : ℝ) by push_cast; norm_num,
      Real.rpow_natCast]
  have hpos : (0 : ℝ) < (10 : ℝ) ^ (5.4 : ℝ) :=
    Real.rpow_pos_of_pos (by norm_num) _
  constructor
  · have h5 : (251188.64 : ℝ) ^ (5 : ℕ) ≤ ((10 : ℝ) ^ (5.4 : ℝ)) ^ (5 : ℕ) := by
      rw [key]; norm_num
    exact le_of_pow_le_pow_left₀ (by norm_num) hpos.le h5
  · have h5 : ((10 : ℝ) ^ (5.4 : ℝ)) ^ (5 : ℕ) ≤ (251188.65 : ℝ) ^ (5 : ℕ) := by
      rw [key]; norm_num
    exact le_of_pow_le_pow_left₀ (by norm_num) (by norm_num) h5

/-- Numeric bracket for the relative plasma speed of the HD 189733 b
scenario. -/
lemma H_v0_bounds :
    (3141238.28 : ℝ) ≤
        rel_plasma_speed (orbital_speed 1.166 1.6 1.119) (escape_speed 1 1) ∧
      rel_plasma_speed (orbital_speed 1.166 1.6 1.119) (escape_speed 1 1) ≤
        3141238.30 := by
  obtain ⟨ha1, ha2⟩ := vej_bounds
  obtain ⟨hb1, hb2⟩ := vorb_H_bounds
  unfold rel_plasma_speed
  rw [abs_of_nonneg (by linarith)]
  constructor <;> linarith

/-- Numeric bracket for the torus volume of the HD 189733 b scenario. -/
lemma H_vol_bounds :
    (2.348578e29 : ℝ) ≤
        volume_torus 1.6 1.119 (escape_speed 1 1)
          (orbital_speed 1.166 1.6 1.119) ∧
      volume_torus 1.6 1.119 (escape_speed 1 1)
          (orbital_speed 1.166 1.6 1.119) ≤ 2.348581e29 := by
  obtain ⟨ha1, ha2⟩ := vej_bounds
  obtain ⟨hb1, hb2⟩ := vorb_H_bounds
  have hq := mem_div (show (0 : ℝ) ≤ 255880.53 by norm_num)
    (show (0 : ℝ) < 3397118.82 by norm_num) ha1 ha2 hb1 hb2
  have hq2 := mem_sq
    (show (0 : ℝ) ≤ 255880.53 / 3397118.83 by positivity) hq.1 hq.2
  have hpi2 := mem_sq (show (0 : ℝ) ≤ 3.141592 by norm_num)
    Real.pi_gt_d6.le Real.pi_lt_d6.le
  have hprod := mem_mul (show (0 : ℝ) ≤ 3.141592 ^ 2 by positivity)
    (show (0 : ℝ) ≤ (255880.53 / 3397118.83) ^ 2 by positivity)
    hpi2.1 hpi2.2 hq2.1 hq2.2
  have hE : volume_torus 1.6 1.119 (escape_speed 1 1)
      (orbital_speed 1.166 1.6 1.119) =
      2 * (1.6 * 1.119 * 7.1492e9 : ℝ) ^ 3 *
        (Real.pi ^ 2 *
          (escape_speed 1 1 / orbital_speed 1.166 1.6 1.119) ^ 2) := by
    unfold volume_torus R_jup
    ring
  rw [hE]
  have hsc := mem_scale
    (show (0 : ℝ) ≤ 2 * (1.6 * 1.119 * 7.1492e9 : ℝ) ^ 3 by norm_num)
    hprod.1 hprod.2
  exact ⟨le_trans (by norm_num) hsc.1, le_trans hsc.2 (by norm_num)⟩

/-- Numeric bracket for the plasma density of the HD 189733 b scenario. -/
lemma H_rho_bounds :
    (1.081297e-15 : ℝ) ≤
        plasma_density ((10 : ℝ) ^ (5.4 : ℝ) * 1000 * 1000) 1011
          (volume_torus 1.6 1.119 (escape_speed 1 1)
            (orbital_speed 1.166 1.6 1.119)) ∧
      plasma_density ((10 : ℝ) ^ (5.4 : ℝ) * 1000 * 1000) 1011
          (volume_torus 1.6 1.119 (escape_speed 1 1)
            (orbital_speed 1.166 1.6 1.119)) ≤ 1.081301e-15 := by
  obtain ⟨hm1, hm2⟩ := ten_pow_54_bounds
  obtain ⟨hv1, hv2⟩ := H_vol_bounds
  unfold plasma_density
  have hn0 := mem_scale_right (show (0 : ℝ) ≤ 1000 by norm_num) hm1 hm2
  have hn1 := mem_scale_right (show (0 : ℝ) ≤ 1000 by norm_num) hn0.1 hn0.2
  have hn2 := mem_scale_right (show (0 : ℝ) ≤ 1011 by norm_num) hn1.1 hn1.2
  have hd := mem_div
    (show (0 : ℝ) ≤ 251188.64 * 1000 * 1000 * 1011 by norm_num)
    (show (0 : ℝ) < 2.348578e29 by norm_num) hn2.1 hn2.2 hv1 hv2
  exact ⟨le_trans (by norm_num) hd.1, le_trans hd.2 (by norm_num)⟩

/-- Numeric bracket for the radiated power of the HD 189733 b scenario. -/
lemma H_power_bounds :
    (1.24656e22 : ℝ) ≤
        power_rad 0.1 1 (magnetic_field_s 53.57 1.6)
          (rel_plasma_speed (orbital_speed 1.166 1.6 1.119) (escape_speed 1 1))
          (plasma_density ((10 : ℝ) ^ (5.4 : ℝ) * 1000 * 1000) 1011
            (volume_torus 1.6 1.119 (escape_speed 1 1)
              (orbital_speed 1.166 1.6 1.119))) ∧
      power_rad 0.1 1 (magnetic_field_s 53.57 1.6)
          (rel_plasma_speed (orbital_speed 1.166 1.6 1.119) (escape_speed 1 1))
          (plasma_density ((10 : ℝ) ^ (5.4 : ℝ) * 1000 * 1000) 1011
            (volume_torus 1.6 1.119 (escape_speed 1 1)
              (orbital_speed 1.166 1.6 1.119))) ≤ 1.24666e22 := by
  obtain ⟨hv1, hv2⟩ := H_v0_bounds
  obtain ⟨hr1, hr2⟩ := H_rho_bounds
  set V := rel_plasma_speed (orbital_speed 1.166 1.6 1.119) (escape_speed 1 1)
  set RHO := plasma_density ((10 : ℝ) ^ (5.4 : ℝ) * 1000 * 1000) 1011
    (volume_torus 1.6 1.119 (escape_speed 1 1)
      (orbital_speed 1.166 1.6 1.119))
  have hE : power_rad 0.1 1 (magnetic_field_s 53.57 1.6) V RHO =
      0.1 * ((1 : ℝ) * 1821e5) ^ 2 * (53.57 / 1.6 ^ 3) ^ 2 / 12.5663706212 *
        (Real.pi * (V * Real.sqrt
          (RHO / (RHO + 1 / 12.5663706212 * (53.57 / 1.6 ^ 3 / V) ^ 2)))) := by
    unfold power_rad magnetic_field_s mu0 r_io
    ring
  rw [hE]
  have hq := mem_div (show (0 : ℝ) ≤ 53.57 / 1.6 ^ 3 by norm_num)
    (show (0 : ℝ) < 3141238.28 by norm_num)
    (le_refl ((53.57 : ℝ) / 1.6 ^ 3))
    (le_refl ((53.57 : ℝ) / 1.6 ^ 3)) hv1 hv2
  have hq2 := mem_sq
    (show (0 : ℝ) ≤ 53.57 / 1.6 ^ 3 / 3141238.30 by positivity) hq.1 hq.2
  have hrcp := mem_scale
    (show (0 : ℝ) ≤ 1 / (12.5663706212 : ℝ) by norm_num) hq2.1 hq2.2
  have hden1 : (1.081297e-15 + 1.3794684e-12 : ℝ) ≤
      RHO + 1 / 12.5663706212 * (53.57 / 1.6 ^ 3 / V) ^ 2 :=
    add_le_add hr1 (le_trans (by norm_num) hrcp.1)
  have hden2 : RHO + 1 / 12.5663706212 * (53.57 / 1.6 ^ 3 / V) ^ 2 ≤
      1.081301e-15 + 1.3794685e-12 :=
    add_le_add hr2 (le_trans hrcp.2 (by norm_num))
  have hf := mem_div (show (0 : ℝ) ≤ 1.081297e-15 by norm_num)
    (show (0 : ℝ) < 1.081297e-15 + 1.3794684e-12 by norm_num)
    hr1 hr2 hden1 hden2
  have hf1 : (7.832365e-4 : ℝ) ≤
      RHO / (RHO + 1 / 12.5663706212 * (53.57 / 1.6 ^ 3 / V) ^ 2) :=
    le_trans (by norm_num) hf.1
  have hf2 : RHO / (RHO + 1 / 12.5663706212 * (53.57 / 1.6 ^ 3 / V) ^ 2) ≤
      7.832395e-4 :=
    le_trans hf.2 (by norm_num)
  have hsf := mem_sqrt (show (0 : ℝ) ≤ 0.0279863 by norm_num)
    (show (0 : ℝ) ≤ 0.0279865 by norm_num)
    (le_trans (show ((0.0279863 : ℝ)) ^ 2 ≤ 7.832365e-4 by norm_num) hf1)
    (le_trans hf2 (show (7.832395e-4 : ℝ) ≤ (0.0279865 : ℝ) ^ 2 by norm_num))
  have hvs := mem_mul (show (0 : ℝ) ≤ 3141238.28 by norm_num)
    (show (0 : ℝ) ≤ 0.0279863 by norm_num) hv1 hv2 hsf.1 hsf.2
  have hps := mem_mul (show (0 : ℝ) ≤ 3.141592 by norm_num)
    (show (0 : ℝ) ≤ 3141238.28 * 0.0279863 by norm_num)
    Real.pi_gt_d6.le Real.pi_lt_d6.le hvs.1 hvs.2
  have hsc := mem_scale
    (show (0 : ℝ) ≤ 0.1 * ((1 : ℝ) * 1821e5) ^ 2 *
        (53.57 / 1.6 ^ 3) ^ 2 / 12.5663706212 by norm_num)
    hps.1 hps.2
  exact ⟨le_trans (by norm_num) hsc.1, le_trans hsc.2 (by norm_num)⟩

/-- Numeric bracket for the end to end flux density of the HD 189733 b
scenario. -/
lemma H_S_bounds : (27.941 : ℝ) ≤ S_HD189_variant ∧ S_HD189_variant ≤ 27.945 := by
  obtain ⟨hP1, hP2⟩ := H_power_bounds
  unfold S_HD189_variant flux_rad MHzInHz pcInCm mJyInCgs
  constructor
  · refine le_trans (show (27.941 : ℝ) ≤ 1.24656e22 /
      (0.16 * (150 * 1e6 / 2) * (19.76 * 3.0856775814913673e18) ^ 2) / 1e-26
      by norm_num) ?_
    gcongr
  · refine le_trans ?_ (show (1.24666e22 : ℝ) /
      (0.16 * (150 * 1e6 / 2) * (19.76 * 3.0856775814913673e18) ^ 2) / 1e-26 ≤
      27.945 by norm_num)
    gcongr

/-- Claim C4 counterexample: the pipeline at the claimed HD 189733 b inputs
is nowhere near 115.39 mJy; it is off by far more than one percent. -/
theorem S_HD189_variant_off_claim :
    0.01 * 115.39 < |S_HD189_variant - 115.39| := by
  obtain ⟨h1, h2⟩ := H_S_bounds
  rw [abs_sub_comm]
  calc (0.01 * 115.39 : ℝ) < 115.39 - 27.945 := by norm_num
    _ ≤ 115.39 - S_HD189_variant := by linarith
    _ ≤ |115.39 - S_HD189_variant| := le_abs_self _

/-- Claim C4 amended: the pipeline at the claimed HD 189733 b inputs yields a
flux density of about 27.94 mJy, within one percent. -/
theorem S_HD189_variant_approx : |S_HD189_variant - 27.94| ≤ 0.01 * 27.94 := by
  obtain ⟨h1, h2⟩ := H_S_bounds
  rw [abs_le]
  constructor <;> linarith

end RadioFlux
